import Mathlib

/-!
Verification of the portfolio-optimization core (`src/Load_Data.py`) and the
UI glue (`src/app.py`) of the portfolio_management repository.

Embedding choices:
* Python floats are modelled as real numbers (`ℝ`); `np.inf` is modelled by
  working in `EReal` where the code can produce an infinity; `np.nan` entries
  of the frontier-volatility list are modelled as `Option ℝ` with `none`
  playing the role of NaN (the code only ever tests such entries with
  `np.isnan`).
* Vectors (numpy 1-d arrays / pandas Series) are `List ℝ`; matrices are
  `List (List ℝ)` in row-major order.
* `scipy.optimize.minimize` is an external black box: it is modelled as an
  arbitrary function `Minimizer` from the data the code actually passes to it
  (objective, initial guess, bounds, equality constraints) to a result record
  mirroring scipy's `OptimizeResult` fields used by the code
  (`x`, `success`, `message`, `fun` — renamed `fval`).
* Python exceptions raised by `calculated_result` / `get_data` are modelled
  with `Except String`.
-/

/-- Constant `TRADING_DAYS = 252` (Load_Data.py line 7). -/
def TRADING_DAYS : ℝ := 252

/-- Function `port_performance(weights, mean_return, covar)` (Load_Data.py lines 31-35):
`np.sum(mean_return * weights) * TRADING_DAYS` and
`np.sqrt(np.dot(weights.T, np.dot(covar, weights))) * np.sqrt(TRADING_DAYS)`.
Elementwise products of numpy arrays are `List.zipWith (· * ·)`; `np.dot` of a
matrix with a vector maps the rowwise dot product over the rows. -/
noncomputable def port_performance (weights mean_return : List ℝ)
    (covar : List (List ℝ)) : ℝ × ℝ :=
  ((List.zipWith (· * ·) mean_return weights).sum * TRADING_DAYS,
   Real.sqrt ((List.zipWith (· * ·) weights
      (covar.map (fun row => (List.zipWith (· * ·) row weights).sum))).sum)
     * Real.sqrt TRADING_DAYS)

/-- The inner product `a · b` written as the spec writes it: a sum of
coordinatewise products over the index range. -/
noncomputable def dot_spec (a b : List ℝ) : ℝ :=
  ∑ i ∈ Finset.range b.length, a.getD i 0 * b.getD i 0

/-- The quadratic form `wᵗ · M · w` written as the spec writes it:
`∑ i ∑ j w i * M i j * w j`. -/
noncomputable def quad_spec (w : List ℝ) (M : List (List ℝ)) : ℝ :=
  ∑ i ∈ Finset.range w.length, ∑ j ∈ Finset.range w.length,
    w.getD i 0 * (M.getD i []).getD j 0 * w.getD j 0

/-- Numpy `np.isclose(a, b)` with numpy's default tolerances
`rtol = 1e-5`, `atol = 1e-8`: `|a - b| <= atol + rtol * |b|`. -/
def np_isclose (a b : ℝ) : Prop := |a - b| ≤ 1e-8 + 1e-5 * |b|

noncomputable instance (a b : ℝ) : Decidable (np_isclose a b) :=
  inferInstanceAs (Decidable (|a - b| ≤ 1e-8 + 1e-5 * |b|))

/-- Function `negative_sharpe(weights, mean_return, covar, risk_free_rate)`
(Load_Data.py lines 38-44).  `np.inf` is the top element of `EReal`. -/
noncomputable def negative_sharpe (weights mean_return : List ℝ)
    (covar : List (List ℝ)) (risk_free_rate : ℝ) : EReal :=
  let p := port_performance weights mean_return covar
  if np_isclose p.2 0 then (⊤ : EReal)
  else ((-((p.1 - risk_free_rate) / p.2) : ℝ) : EReal)

/-- The fields of scipy's `OptimizeResult` that the code reads:
`x`, `success`, `message` and `fun` (renamed `fval`, since `fun` is a Lean
keyword). -/
structure OptResult where
  x : List ℝ
  success : Bool
  message : String
  fval : ℝ

/-- The data `scipy.optimize.minimize` receives at every call site of
Load_Data.py: the objective, the initial guess, per-asset bounds and the
list of equality-constraint functions (each must be zero at a feasible
point).  The SLSQP method string is the same at every call site and carries
no information, so it is not modelled. -/
structure MinimizeCall where
  objective : List ℝ → EReal
  x0 : List ℝ
  bounds : List (ℝ × ℝ)
  constraints : List (List ℝ → ℝ)

/-- External `scipy.optimize.minimize` as a black box. -/
abbrev Minimizer := MinimizeCall → OptResult

/-- Function `max_sharpe_ratio(mean_return, covar, risk_free_rate, constraint_set)`
(Load_Data.py lines 47-60). -/
noncomputable def max_sharpe_ratio (minimize : Minimizer)
    (mean_return : List ℝ) (covar : List (List ℝ)) (risk_free_rate : ℝ)
    (constraint_set : ℝ × ℝ) : OptResult :=
  let num_assets := mean_return.length
  minimize
    { objective := fun x => negative_sharpe x mean_return covar risk_free_rate
      x0 := List.replicate num_assets (1 / (num_assets : ℝ))
      bounds := List.replicate num_assets constraint_set
      constraints := [fun x => x.sum - 1] }

/-- Function `portfolio_var(weights, mean_return, covar)` (Load_Data.py lines 63-65). -/
noncomputable def portfolio_var (weights mean_return : List ℝ)
    (covar : List (List ℝ)) : ℝ :=
  (port_performance weights mean_return covar).2

/-- Function `min_portfolio_var(mean_return, covar, constraint_set)`
(Load_Data.py lines 68-80).  No risk-free-rate parameter exists. -/
noncomputable def min_portfolio_var (minimize : Minimizer)
    (mean_return : List ℝ) (covar : List (List ℝ))
    (constraint_set : ℝ × ℝ) : OptResult :=
  let num_assets := mean_return.length
  minimize
    { objective := fun x => ((portfolio_var x mean_return covar : ℝ) : EReal)
      x0 := List.replicate num_assets (1 / (num_assets : ℝ))
      bounds := List.replicate num_assets constraint_set
      constraints := [fun x => x.sum - 1] }

/-- Function `portfolio_return(weights, mean_return, covar)` (Load_Data.py lines 83-84). -/
noncomputable def portfolio_return (weights mean_return : List ℝ)
    (covar : List (List ℝ)) : ℝ :=
  (port_performance weights mean_return covar).1

/-- Function `efficient_frontier(mean_return, covar, target_return, constraint_set)`
(Load_Data.py lines 87-106): min-volatility solve with the additional
equality constraint `portfolio_return(x) - target_return = 0`. -/
noncomputable def efficient_frontier (minimize : Minimizer)
    (mean_return : List ℝ) (covar : List (List ℝ)) (target_return : ℝ)
    (constraint_set : ℝ × ℝ) : OptResult :=
  let num_assets := mean_return.length
  minimize
    { objective := fun x => ((portfolio_var x mean_return covar : ℝ) : EReal)
      x0 := List.replicate num_assets (1 / (num_assets : ℝ))
      bounds := List.replicate num_assets constraint_set
      constraints := [fun x => portfolio_return x mean_return covar - target_return,
                      fun x => x.sum - 1] }

/-- Numpy `np.linspace(a, b, num)` with the default `endpoint=True`:
`num` evenly spaced samples `a + (b - a) * i / (num - 1)`. -/
noncomputable def np_linspace (a b : ℝ) (num : ℕ) : List ℝ :=
  (List.range num).map (fun i : ℕ => a + (b - a) * (i : ℝ) / ((num : ℝ) - 1))

/-- Python `round(x, 2)` (ties are not exercised by any claim, so the
half-up convention of Mathlib's `round` is adequate). -/
noncomputable def round_2dp (x : ℝ) : ℝ := ((round (x * 100) : ℤ) : ℝ) / 100

/-- The tuple returned by `calculated_result` (Load_Data.py lines 142-151);
the allocation DataFrames are modelled by their single `Allocation` column,
i.e. the raw weight vectors, and the `ef_vols` list holds `none` where the
code appends `np.nan`. -/
structure CalcOutput where
  opt_return : ℝ
  opt_std : ℝ
  optimal_allocation : List ℝ
  minimal_return : ℝ
  minimal_std : ℝ
  minimal_allocation : List ℝ
  ef_vols : List (Option ℝ)
  target_returns : List ℝ

/-- The success-branch value of `calculated_result` (Load_Data.py
lines 117-151), factored out so the control flow of the function stays
readable. -/
noncomputable def calc_output (minimize : Minimizer) (mean_return : List ℝ)
    (covar : List (List ℝ)) (risk_free_rate : ℝ)
    (constraint_set : ℝ × ℝ) : CalcOutput :=
  let optimal_weights := (max_sharpe_ratio minimize mean_return covar risk_free_rate constraint_set).x
  let minimal_weights := (min_portfolio_var minimize mean_return covar constraint_set).x
  let opt_perf := port_performance optimal_weights mean_return covar
  let min_perf := port_performance minimal_weights mean_return covar
  let target_returns := np_linspace min_perf.1 opt_perf.1 20
  { opt_return := round_2dp (opt_perf.1 * 100)
    opt_std := round_2dp (opt_perf.2 * 100)
    optimal_allocation := optimal_weights
    minimal_return := round_2dp (min_perf.1 * 100)
    minimal_std := round_2dp (min_perf.2 * 100)
    minimal_allocation := minimal_weights
    ef_vols := target_returns.map (fun target =>
      let ef_result := efficient_frontier minimize mean_return covar target constraint_set
      if ef_result.success then some ef_result.fval else none)
    target_returns := target_returns }

/-- Function `calculated_result(mean_return, covar, risk_free_rate, constraint_set)`
(Load_Data.py lines 109-151); the two `raise ValueError` statements are the
`Except.error` branches. -/
noncomputable def calculated_result (minimize : Minimizer) (mean_return : List ℝ)
    (covar : List (List ℝ)) (risk_free_rate : ℝ)
    (constraint_set : ℝ × ℝ) : Except String CalcOutput :=
  let max_sharpe_result := max_sharpe_ratio minimize mean_return covar risk_free_rate constraint_set
  let min_vol_result := min_portfolio_var minimize mean_return covar constraint_set
  if !max_sharpe_result.success then
    .error ("Max Sharpe optimization failed: " ++ max_sharpe_result.message)
  else if !min_vol_result.success then
    .error ("Min volatility optimization failed: " ++ min_vol_result.message)
  else
    .ok (calc_output minimize mean_return covar risk_free_rate constraint_set)

/-- The x-coordinates of the `ef_curve` scatter trace (Load_Data.py
line 186): `round(vol * 100, 2) if not np.isnan(vol) else None`. -/
noncomputable def ef_curve_x (ef_vols : List (Option ℝ)) : List (Option ℝ) :=
  ef_vols.map (fun vol => vol.map (fun v => round_2dp (v * 100)))

/-- A solver oracle that never converges. -/
noncomputable def m_fail : Minimizer :=
  fun _ => { x := [], success := false, message := "did not converge", fval := 0 }

/-- A solver oracle that always reports success with the portfolio
`[1/2, 1/2]`. -/
noncomputable def m_const : Minimizer :=
  fun _ => { x := [1 / 2, 1 / 2], success := true, message := "", fval := 0 }

/-- The output of `calculated_result` under `m_const` on two assets with zero
mean returns and zero covariance. -/
noncomputable def T0 : CalcOutput :=
  { opt_return := 0, opt_std := 0, optimal_allocation := [1 / 2, 1 / 2],
    minimal_return := 0, minimal_std := 0, minimal_allocation := [1 / 2, 1 / 2],
    ef_vols := List.replicate 20 (some 0), target_returns := List.replicate 20 0 }

/-- A solver oracle that distinguishes the Negative-Sharpe objective from the
Variance objective by probing the objective at the all-zero weight vector
(where the former is `+∞` and the latter is a real number), and reports a
different successful portfolio for each. -/
noncomputable def m_sel : Minimizer := fun c =>
  if c.objective [0, 0] = ⊤
  then { x := [1, 0], success := true, message := "", fval := 0 }
  else { x := [0, 1], success := true, message := "", fval := 0 }

/-- The output of `calculated_result` under `m_sel` on the statistics
`mean_return = [1, 0]`, zero covariance, bounds `(0, 1)` (any risk-free
rate). -/
noncomputable def T1 : CalcOutput :=
  { opt_return := 25200, opt_std := 0, optimal_allocation := [1, 0],
    minimal_return := 0, minimal_std := 0, minimal_allocation := [0, 1],
    ef_vols := List.replicate 20 (some 0),
    target_returns := np_linspace 0 252 20 }

/-- A solver oracle under which both named solves converge (as under `m_sel`)
but every frontier solve — recognizable by its two equality constraints —
fails. -/
noncomputable def m_mix : Minimizer := fun c =>
  if c.constraints.length = 2
  then { x := [0, 1], success := false, message := "infeasible", fval := 0 }
  else m_sel c

/-- The output of `calculated_result` under `m_mix`: every frontier point is
the infeasible sentinel. -/
noncomputable def T2 : CalcOutput :=
  { opt_return := 25200, opt_std := 0, optimal_allocation := [1, 0],
    minimal_return := 0, minimal_std := 0, minimal_allocation := [0, 1],
    ef_vols := List.replicate 20 none,
    target_returns := np_linspace 0 252 20 }

/-- app.py lines 83-85 (and 89-91): the allocation table shown to the user is
`(allocation * 100).round(2)`, the weight vector in rounded percentage
points. -/
noncomputable def display_allocation (alloc : List ℝ) : List ℝ :=
  alloc.map (fun a => round_2dp (a * 100))

/-- The validation prefix of `get_data(stocks, start, end)` (Load_Data.py
lines 10-15).  Dates are modelled as day ordinals (`ℤ`); the Stooq download
and return-statistics computation (lines 17-28) are external I/O, modelled by
the `fetch` argument holding either the statistics or the no-data error of
lines 23-24. -/
def get_data (stocks : List String) (start_date end_date : ℤ)
    (fetch : Except String (List ℝ × List (List ℝ))) :
    Except String (List ℝ × List (List ℝ)) :=
  if stocks = [] then .error "At least one ticker is required."
  else if start_date ≥ end_date then .error "Start date must be earlier than end date."
  else fetch

/-- What the results area of the page shows after the Run button: either an
`st.error` box or the numeric results. -/
inductive AppView where
  | errorBox : String → AppView
  | results : CalcOutput → AppView

/-- The `run_clicked` branch of app.py (lines 49-70): ticker-count and bound
validation, statistics load, optimization, `st.error` on failure.  The
figure (`ef_graph`) recomputes `calculated_result` on the same inputs and
only adds plot styling, so the happy path is summarized by the
`calculated_result` output. -/
noncomputable def run_clicked (tickers : List String)
    (lower_bound upper_bound : ℝ) (start_date end_date : ℤ)
    (risk_free_rate : ℝ) (fetch : Except String (List ℝ × List (List ℝ)))
    (minimize : Minimizer) : AppView :=
  if tickers.length < 2 then .errorBox "Please enter at least 2 tickers."
  else if lower_bound ≥ upper_bound then
    .errorBox "Lower bound must be smaller than upper bound."
  else
    match get_data tickers start_date end_date fetch with
    | .error e => .errorBox ("Optimization failed: " ++ e)
    | .ok (mean_return, covar) =>
      match calculated_result minimize mean_return covar risk_free_rate
          (lower_bound, upper_bound) with
      | .error e => .errorBox ("Optimization failed: " ++ e)
      | .ok t => .results t

/-- The list comprehension of app.py line 15:
`[t.strip().upper() for t in raw_value.split(",") if t.strip()]`. -/
def clean_tokens (raw_value : String) : List String :=
  (raw_value.splitOn ",").filterMap
    (fun t => if t.trim = "" then none else some t.trim.toUpper)

/-- First-occurrence deduplication against a `seen` accumulator. -/
def dedup_first_aux (seen : List String) : List String → List String
  | [] => []
  | x :: xs =>
    if x ∈ seen then dedup_first_aux seen xs
    else x :: dedup_first_aux (x :: seen) xs

/-- Function `_parse_tickers(raw_value)` (app.py lines 14-16): split on commas, strip,
uppercase, drop empty tokens, then `list(dict.fromkeys(tickers))` — dedup
keeping each ticker's first occurrence in order. -/
def _parse_tickers (raw_value : String) : List String :=
  dedup_first_aux [] (clean_tokens raw_value)

/-- Python `dict.fromkeys` ordering semantics, written as the spec-side fold:
keys are inserted left to right and an already-present key is skipped. -/
def fromkeys_spec (l : List String) : List String :=
  l.foldl (fun acc x => if x ∈ acc then acc else acc ++ [x]) []

lemma zipWith_mul_sum (a b : List ℝ) (h : a.length = b.length) :
    (List.zipWith (· * ·) a b).sum
      = ∑ i ∈ Finset.range a.length, a.getD i 0 * b.getD i 0 := by
  induction a generalizing b with
  | nil => simp
  | cons x xs ih =>
    cases b with
    | nil => simp at h
    | cons y ys =>
      simp only [List.zipWith_cons_cons, List.sum_cons, List.length_cons]
      rw [Finset.sum_range_succ']
      simp only [List.getD_cons_succ, List.getD_cons_zero]
      rw [ih ys (by simpa using h)]
      ring

lemma port_performance_fst (weights mean_return : List ℝ) (covar : List (List ℝ))
    (hm : mean_return.length = weights.length) :
    (port_performance weights mean_return covar).1
      = dot_spec mean_return weights * 252 := by
  simp only [port_performance, dot_spec, TRADING_DAYS]
  rw [zipWith_mul_sum mean_return weights hm, hm]

lemma port_performance_quad (weights : List ℝ) (covar : List (List ℝ))
    (hc : covar.length = weights.length)
    (hrow : ∀ row ∈ covar, row.length = weights.length) :
    (List.zipWith (· * ·) weights
      (covar.map (fun row => (List.zipWith (· * ·) row weights).sum))).sum
      = quad_spec weights covar := by
  rw [zipWith_mul_sum weights _ (by simp [hc])]
  unfold quad_spec
  refine Finset.sum_congr rfl ?_
  intro i hi
  have hilt : i < weights.length := Finset.mem_range.mp hi
  have hic : i < covar.length := by rw [hc]; exact hilt
  have hmap : (covar.map (fun row => (List.zipWith (· * ·) row weights).sum)).getD i 0
      = (List.zipWith (· * ·) (covar.getD i []) weights).sum := by
    rw [List.getD_eq_getElem _ _ (by simpa using hic), List.getElem_map,
      List.getD_eq_getElem _ _ hic]
  have hmem : covar.getD i [] ∈ covar := by
    rw [List.getD_eq_getElem _ _ hic]
    exact List.getElem_mem hic
  rw [hmap, zipWith_mul_sum _ weights (hrow _ hmem), hrow _ hmem, Finset.mul_sum]
  exact Finset.sum_congr rfl (fun j _ => by ring)

lemma port_performance_snd (weights mean_return : List ℝ) (covar : List (List ℝ))
    (hc : covar.length = weights.length)
    (hrow : ∀ row ∈ covar, row.length = weights.length) :
    (port_performance weights mean_return covar).2
      = Real.sqrt (quad_spec weights covar) * Real.sqrt 252 := by
  simp only [port_performance, TRADING_DAYS]
  rw [port_performance_quad weights covar hc hrow]

/-- C1: for every weight vector `w`, mean-return vector `mu` and covariance
matrix `Sigma` of matching dimension, `port_performance` returns annualized
return `(mu · w) * 252` and annualized volatility
`Real.sqrt (wᵗ · Sigma · w) * Real.sqrt 252`, with 252 the fixed
annualization factor. -/
theorem port_performance_matches_spec (weights mean_return : List ℝ)
    (covar : List (List ℝ))
    (hm : mean_return.length = weights.length)
    (hc : covar.length = weights.length)
    (hrow : ∀ row ∈ covar, row.length = weights.length) :
    (port_performance weights mean_return covar).1
        = dot_spec mean_return weights * 252 ∧
    (port_performance weights mean_return covar).2
        = Real.sqrt (quad_spec weights covar) * Real.sqrt 252 := by
  exact ⟨port_performance_fst weights mean_return covar hm,
    port_performance_snd weights mean_return covar hc hrow⟩

/-- C1 witness: the theorem applied to the concrete two-asset instance
`w = [1, 0]`, `mu = [2, 3]`, `Sigma = [[1, 0], [0, 1]]`. -/
theorem port_performance_matches_spec_witness :
    (port_performance [1, 0] [2, 3] [[1, 0], [0, 1]]).1
        = dot_spec [2, 3] [1, 0] * 252 ∧
    (port_performance [1, 0] [2, 3] [[1, 0], [0, 1]]).2
        = Real.sqrt (quad_spec [1, 0] [[1, 0], [0, 1]]) * Real.sqrt 252 :=
  port_performance_matches_spec [1, 0] [2, 3] [[1, 0], [0, 1]]
    (by simp) (by simp) (by intro row hrow; fin_cases hrow <;> simp)

/-- C2: for every weight vector, statistics and risk-free rate,
`negative_sharpe` returns `-(annualizedReturn - riskFreeRate) / annualizedVolatility`
when the annualized volatility is not numerically zero (numpy `isclose` to 0),
and returns positive infinity when it is numerically zero. -/
theorem negative_sharpe_matches_spec (weights mean_return : List ℝ)
    (covar : List (List ℝ)) (risk_free_rate : ℝ)
    (hm : mean_return.length = weights.length)
    (hc : covar.length = weights.length)
    (hrow : ∀ row ∈ covar, row.length = weights.length) :
    (np_isclose (Real.sqrt (quad_spec weights covar) * Real.sqrt 252) 0 →
      negative_sharpe weights mean_return covar risk_free_rate = ⊤) ∧
    (¬ np_isclose (Real.sqrt (quad_spec weights covar) * Real.sqrt 252) 0 →
      negative_sharpe weights mean_return covar risk_free_rate
        = ((-((dot_spec mean_return weights * 252 - risk_free_rate)
              / (Real.sqrt (quad_spec weights covar) * Real.sqrt 252)) : ℝ) : EReal)) := by
  have h1 := port_performance_fst weights mean_return covar hm
  have h2 := port_performance_snd weights mean_return covar hc hrow
  constructor
  · intro hz
    simp only [negative_sharpe, h2]
    rw [if_pos hz]
  · intro hz
    simp only [negative_sharpe, h1, h2]
    rw [if_neg hz]

lemma quad_spec_unit : quad_spec [1, 0] [[1, 0], [0, 0]] = 1 := by
  simp [quad_spec, Finset.sum_range_succ]

lemma quad_spec_zero_weights (M : List (List ℝ)) : quad_spec [(0 : ℝ), 0] M = 0 := by
  simp only [quad_spec]
  refine Finset.sum_eq_zero ?_
  intro i hi
  refine Finset.sum_eq_zero ?_
  intro j hj
  have hi2 : i < 2 := by simpa using Finset.mem_range.mp hi
  have hj2 : j < 2 := by simpa using Finset.mem_range.mp hj
  interval_cases i <;> interval_cases j <;> simp

/-- C2 witness: the theorem applied to a zero-volatility instance
(zero covariance, the guard fires and the objective is `+∞`) and to a
unit-variance instance (the guard does not fire and the Sharpe quotient is
returned). -/
theorem negative_sharpe_matches_spec_witness :
    negative_sharpe [0, 0] [1, 0] [[0, 0], [0, 0]] 0 = ⊤ ∧
    negative_sharpe [1, 0] [1, 0] [[1, 0], [0, 0]] 0
      = ((-((dot_spec [1, 0] [1, 0] * 252 - 0)
            / (Real.sqrt (quad_spec [1, 0] [[1, 0], [0, 0]]) * Real.sqrt 252)) : ℝ) : EReal) := by
  constructor
  · refine (negative_sharpe_matches_spec [0, 0] [1, 0] [[0, 0], [0, 0]] 0
      (by simp) (by simp) (by intro row hrow; fin_cases hrow <;> simp)).1 ?_
    rw [quad_spec_zero_weights]
    simp [np_isclose]
    norm_num
  · refine (negative_sharpe_matches_spec [1, 0] [1, 0] [[1, 0], [0, 0]] 0
      (by simp) (by simp) (by intro row hrow; fin_cases hrow <;> simp)).2 ?_
    rw [quad_spec_unit]
    have hs : (1 : ℝ) ≤ Real.sqrt 252 := by
      rw [show (1 : ℝ) = Real.sqrt 1 by simp]
      exact Real.sqrt_le_sqrt (by norm_num)
    simp only [np_isclose, Real.sqrt_one, one_mul, sub_zero, abs_zero, mul_zero, add_zero]
    rw [abs_of_nonneg (by positivity)]
    intro hle
    linarith

lemma calculated_result_ok_iff (minimize : Minimizer) (mean_return : List ℝ)
    (covar : List (List ℝ)) (risk_free_rate : ℝ) (constraint_set : ℝ × ℝ)
    (t : CalcOutput) :
    calculated_result minimize mean_return covar risk_free_rate constraint_set
        = .ok t ↔
    (max_sharpe_ratio minimize mean_return covar risk_free_rate constraint_set).success = true ∧
    (min_portfolio_var minimize mean_return covar constraint_set).success = true ∧
    t = calc_output minimize mean_return covar risk_free_rate constraint_set := by
  unfold calculated_result
  rcases hms : (max_sharpe_ratio minimize mean_return covar risk_free_rate constraint_set).success
  · simp [hms]
  · rcases hmv : (min_portfolio_var minimize mean_return covar constraint_set).success
    · simp [hms, hmv]
    · simp [hms, hmv, eq_comm]

lemma np_linspace_length (a b : ℝ) (num : ℕ) : (np_linspace a b num).length = num := by
  simp [np_linspace]

lemma np_linspace_getD (a b : ℝ) (num : ℕ) (i : ℕ) (h : i < num) :
    (np_linspace a b num).getD i 0 = a + (b - a) * i / ((num : ℝ) - 1) := by
  unfold np_linspace
  rw [List.getD_eq_getElem _ _ (by simpa using h), List.getElem_map,
    List.getElem_range]

lemma getD_map_of_lt {α β : Type} (l : List α) (f : α → β) (i : ℕ) (d : α)
    (d' : β) (h : i < l.length) : (l.map f).getD i d' = f (l.getD i d) := by
  rw [List.getD_eq_getElem _ _ (by simpa using h), List.getElem_map,
    List.getD_eq_getElem _ _ h]

/-- C3: if either named-portfolio solve reports non-convergence,
`calculated_result` fails with a single descriptive error propagating the
solver's diagnostic message and produces no output (the `Except.error`
branch carries nothing but the message). -/
theorem calculated_result_named_failure (minimize : Minimizer)
    (mean_return : List ℝ) (covar : List (List ℝ)) (risk_free_rate : ℝ)
    (constraint_set : ℝ × ℝ) :
    ((max_sharpe_ratio minimize mean_return covar risk_free_rate constraint_set).success = false →
      calculated_result minimize mean_return covar risk_free_rate constraint_set
        = .error ("Max Sharpe optimization failed: "
            ++ (max_sharpe_ratio minimize mean_return covar risk_free_rate constraint_set).message)) ∧
    ((max_sharpe_ratio minimize mean_return covar risk_free_rate constraint_set).success = true →
      (min_portfolio_var minimize mean_return covar constraint_set).success = false →
      calculated_result minimize mean_return covar risk_free_rate constraint_set
        = .error ("Min volatility optimization failed: "
            ++ (min_portfolio_var minimize mean_return covar constraint_set).message)) := by
  constructor
  · intro h
    unfold calculated_result
    simp [h]
  · intro h1 h2
    unfold calculated_result
    simp [h1, h2]

/-- C3 witness: with the never-converging oracle, `calculated_result` on a
concrete two-asset input is exactly the Max-Sharpe failure message. -/
theorem calculated_result_named_failure_witness :
    calculated_result m_fail [1, 0] [[1, 0], [0, 1]] 0 (0, 1)
      = .error ("Max Sharpe optimization failed: "
          ++ (max_sharpe_ratio m_fail [1, 0] [[1, 0], [0, 1]] 0 (0, 1)).message) :=
  (calculated_result_named_failure m_fail [1, 0] [[1, 0], [0, 1]] 0 (0, 1)).1 rfl

lemma calc_output_target_returns (minimize : Minimizer) (mean_return : List ℝ)
    (covar : List (List ℝ)) (risk_free_rate : ℝ) (constraint_set : ℝ × ℝ) :
    (calc_output minimize mean_return covar risk_free_rate constraint_set).target_returns
      = np_linspace
          (port_performance (min_portfolio_var minimize mean_return covar constraint_set).x
            mean_return covar).1
          (port_performance (max_sharpe_ratio minimize mean_return covar risk_free_rate constraint_set).x
            mean_return covar).1 20 := rfl

lemma calc_output_target_getD (minimize : Minimizer) (mean_return : List ℝ)
    (covar : List (List ℝ)) (risk_free_rate : ℝ) (constraint_set : ℝ × ℝ)
    (i : ℕ) (h : i < 20) :
    (calc_output minimize mean_return covar risk_free_rate constraint_set).target_returns.getD i 0
      = (port_performance (min_portfolio_var minimize mean_return covar constraint_set).x
            mean_return covar).1
        + ((port_performance (max_sharpe_ratio minimize mean_return covar risk_free_rate constraint_set).x
              mean_return covar).1
           - (port_performance (min_portfolio_var minimize mean_return covar constraint_set).x
              mean_return covar).1) * i / 19 := by
  rw [calc_output_target_returns, np_linspace_getD _ _ _ _ h]
  norm_num

lemma calc_output_ef_vols (minimize : Minimizer) (mean_return : List ℝ)
    (covar : List (List ℝ)) (risk_free_rate : ℝ) (constraint_set : ℝ × ℝ) :
    (calc_output minimize mean_return covar risk_free_rate constraint_set).ef_vols
      = (calc_output minimize mean_return covar risk_free_rate constraint_set).target_returns.map
          (fun target =>
            let ef_result := efficient_frontier minimize mean_return covar target constraint_set
            if ef_result.success then some ef_result.fval else none) := rfl

/-- C4: on every successful run, the frontier sweep produces exactly 20
target returns, evenly spaced from the Minimum Volatility portfolio's
annualized return to the Maximum Sharpe portfolio's annualized return,
endpoints included (all coinciding when the two returns are equal), and each
sampled volatility is the outcome of a solve of the variance objective under
the budget constraint, the target-return equality constraint and the same
per-asset bounds. -/
theorem frontier_sweep_matches_spec (minimize : Minimizer) (mean_return : List ℝ)
    (covar : List (List ℝ)) (risk_free_rate : ℝ) (constraint_set : ℝ × ℝ)
    (t : CalcOutput)
    (hok : calculated_result minimize mean_return covar risk_free_rate constraint_set = .ok t) :
    t.target_returns.length = 20 ∧
    (∀ i, i < 20 → t.target_returns.getD i 0
        = (port_performance (min_portfolio_var minimize mean_return covar constraint_set).x
              mean_return covar).1
          + ((port_performance (max_sharpe_ratio minimize mean_return covar risk_free_rate constraint_set).x
                mean_return covar).1
             - (port_performance (min_portfolio_var minimize mean_return covar constraint_set).x
                mean_return covar).1) * i / 19) ∧
    t.target_returns.getD 0 0
        = (port_performance (min_portfolio_var minimize mean_return covar constraint_set).x
            mean_return covar).1 ∧
    t.target_returns.getD 19 0
        = (port_performance (max_sharpe_ratio minimize mean_return covar risk_free_rate constraint_set).x
            mean_return covar).1 ∧
    ((port_performance (min_portfolio_var minimize mean_return covar constraint_set).x
          mean_return covar).1
        = (port_performance (max_sharpe_ratio minimize mean_return covar risk_free_rate constraint_set).x
            mean_return covar).1 →
      ∀ i, i < 20 → t.target_returns.getD i 0
        = (port_performance (min_portfolio_var minimize mean_return covar constraint_set).x
            mean_return covar).1) ∧
    (∀ i, i < 20 → t.ef_vols.getD i none
        = (let ef_result := minimize
              { objective := fun x => ((portfolio_var x mean_return covar : ℝ) : EReal)
                x0 := List.replicate mean_return.length (1 / (mean_return.length : ℝ))
                bounds := List.replicate mean_return.length constraint_set
                constraints := [fun x => portfolio_return x mean_return covar
                                  - t.target_returns.getD i 0,
                                fun x => x.sum - 1] }
           if ef_result.success then some ef_result.fval else none)) := by
  obtain ⟨-, -, ht⟩ := (calculated_result_ok_iff minimize mean_return covar
    risk_free_rate constraint_set t).mp hok
  subst ht
  refine ⟨?_, ?_, ?_, ?_, ?_, ?_⟩
  · rw [calc_output_target_returns, np_linspace_length]
  · intro i hi
    exact calc_output_target_getD minimize mean_return covar risk_free_rate constraint_set i hi
  · rw [calc_output_target_getD minimize mean_return covar risk_free_rate constraint_set 0
      (by norm_num)]
    norm_num
  · rw [calc_output_target_getD minimize mean_return covar risk_free_rate constraint_set 19
      (by norm_num)]
    ring
  · intro heq i hi
    rw [calc_output_target_getD minimize mean_return covar risk_free_rate constraint_set i hi,
      ← heq]
    ring
  · intro i hi
    have hlen : (calc_output minimize mean_return covar risk_free_rate
        constraint_set).target_returns.length = 20 := by
      rw [calc_output_target_returns, np_linspace_length]
    rw [calc_output_ef_vols, getD_map_of_lt _ _ i 0 none (by rw [hlen]; exact hi)]
    rfl

lemma np_linspace_self (a : ℝ) (num : ℕ) :
    np_linspace a a num = List.replicate num a := by
  rw [List.eq_replicate_iff]
  refine ⟨by simp [np_linspace], ?_⟩
  intro b hb
  simp only [np_linspace, List.mem_map, List.mem_range] at hb
  obtain ⟨i, -, rfl⟩ := hb
  ring

lemma pp_half : port_performance [1 / 2, 1 / 2] [0, 0] [[0, 0], [0, 0]] = (0, 0) := by
  norm_num [port_performance, TRADING_DAYS]

lemma calculated_result_m_const :
    calculated_result m_const [0, 0] [[0, 0], [0, 0]] 0 (0, 1) = .ok T0 := by
  rw [calculated_result_ok_iff]
  refine ⟨rfl, rfl, ?_⟩
  have hef : ∀ target : ℝ, efficient_frontier m_const [0, 0] [[0, 0], [0, 0]] target (0, 1)
      = { x := [1 / 2, 1 / 2], success := true, message := "", fval := 0 } := fun _ => rfl
  simp only [calc_output, hef]
  have hx1 : (max_sharpe_ratio m_const [0, 0] [[0, 0], [0, 0]] 0 (0, 1)).x = [1 / 2, 1 / 2] := rfl
  have hx2 : (min_portfolio_var m_const [0, 0] [[0, 0], [0, 0]] (0, 1)).x = [1 / 2, 1 / 2] := rfl
  rw [hx1, hx2, pp_half]
  simp only [np_linspace_self, List.map_replicate]
  norm_num [T0, round_2dp]

/-- C5 counterexample: the claim "frontier targets are strictly increasing on
every run" is false.  Under a solver oracle for which both named solves return
the same portfolio (here on two identical zero-return assets), the Minimum
Volatility and Maximum Sharpe returns coincide and all 20 sampled targets are
equal, so no adjacent pair is strictly increasing. -/
theorem frontier_targets_not_strictly_increasing :
    ¬ (∀ (minimize : Minimizer) (mean_return : List ℝ) (covar : List (List ℝ))
        (risk_free_rate : ℝ) (constraint_set : ℝ × ℝ) (t : CalcOutput),
        calculated_result minimize mean_return covar risk_free_rate constraint_set
            = .ok t →
        ∀ i, i + 1 < 20 →
          t.target_returns.getD i 0 < t.target_returns.getD (i + 1) 0) := by
  intro h
  have h0 := h m_const [0, 0] [[0, 0], [0, 0]] 0 (0, 1) T0
    calculated_result_m_const 0 (by norm_num)
  simp [T0] at h0

/-- C5 (amended): on every successful run in which the Minimum Volatility
portfolio's annualized return is strictly below the Maximum Sharpe
portfolio's annualized return, the sampled target returns are produced and
stored in strictly increasing order. -/
theorem frontier_targets_strictly_increasing (minimize : Minimizer)
    (mean_return : List ℝ) (covar : List (List ℝ)) (risk_free_rate : ℝ)
    (constraint_set : ℝ × ℝ) (t : CalcOutput)
    (hok : calculated_result minimize mean_return covar risk_free_rate constraint_set = .ok t)
    (hlt : (port_performance (min_portfolio_var minimize mean_return covar constraint_set).x
              mean_return covar).1
         < (port_performance (max_sharpe_ratio minimize mean_return covar risk_free_rate constraint_set).x
              mean_return covar).1) :
    ∀ i, i + 1 < 20 →
      t.target_returns.getD i 0 < t.target_returns.getD (i + 1) 0 := by
  obtain ⟨-, -, ht⟩ := (calculated_result_ok_iff minimize mean_return covar
    risk_free_rate constraint_set t).mp hok
  subst ht
  intro i hi
  rw [calc_output_target_getD minimize mean_return covar risk_free_rate constraint_set i
      (by omega),
    calc_output_target_getD minimize mean_return covar risk_free_rate constraint_set (i + 1) hi]
  have hstep : (0 : ℝ) < ((port_performance (max_sharpe_ratio minimize mean_return covar
      risk_free_rate constraint_set).x mean_return covar).1
    - (port_performance (min_portfolio_var minimize mean_return covar constraint_set).x
      mean_return covar).1) := sub_pos.mpr hlt
  have hc : ((i : ℝ)) < ((i + 1 : ℕ) : ℝ) := by push_cast; linarith
  have := mul_lt_mul_of_pos_left hc hstep
  linarith

lemma ns_zero (rf : ℝ) : negative_sharpe [0, 0] [1, 0] [[0, 0], [0, 0]] rf = ⊤ := by
  have hp : port_performance [0, 0] [1, 0] [[0, 0], [0, 0]] = (0, 0) := by
    norm_num [port_performance, TRADING_DAYS]
  simp only [negative_sharpe, hp]
  rw [if_pos]
  norm_num [np_isclose]

lemma max_sharpe_m_sel (rf : ℝ) :
    max_sharpe_ratio m_sel [1, 0] [[0, 0], [0, 0]] rf (0, 1)
      = { x := [1, 0], success := true, message := "", fval := 0 } := by
  simp [max_sharpe_ratio, m_sel, ns_zero rf]

lemma min_var_m_sel :
    min_portfolio_var m_sel [1, 0] [[0, 0], [0, 0]] (0, 1)
      = { x := [0, 1], success := true, message := "", fval := 0 } := by
  simp [min_portfolio_var, m_sel]

lemma ef_m_sel (target : ℝ) :
    efficient_frontier m_sel [1, 0] [[0, 0], [0, 0]] target (0, 1)
      = { x := [0, 1], success := true, message := "", fval := 0 } := by
  simp [efficient_frontier, m_sel]

lemma pp_e1 : port_performance [1, 0] [1, 0] [[0, 0], [0, 0]] = (252, 0) := by
  norm_num [port_performance, TRADING_DAYS]

lemma pp_e2 : port_performance [0, 1] [1, 0] [[0, 0], [0, 0]] = (0, 0) := by
  norm_num [port_performance, TRADING_DAYS]

lemma calculated_result_m_sel (rf : ℝ) :
    calculated_result m_sel [1, 0] [[0, 0], [0, 0]] rf (0, 1) = .ok T1 := by
  rw [calculated_result_ok_iff]
  refine ⟨by rw [max_sharpe_m_sel rf], by rw [min_var_m_sel], ?_⟩
  simp only [calc_output, max_sharpe_m_sel rf, min_var_m_sel, ef_m_sel, pp_e1, pp_e2]
  simp only [List.map_const']
  rw [np_linspace_length]
  norm_num [T1, round_2dp]

/-- C5 (amended) witness: under the `m_sel` oracle the Min Vol return is 0 and
the Max Sharpe return is 252, so consecutive targets strictly increase. -/
theorem frontier_targets_strictly_increasing_witness :
    calculated_result m_sel [1, 0] [[0, 0], [0, 0]] 0 (0, 1) = .ok T1 ∧
    T1.target_returns.getD 0 0 < T1.target_returns.getD 1 0 :=
  ⟨calculated_result_m_sel 0,
   frontier_targets_strictly_increasing m_sel [1, 0] [[0, 0], [0, 0]] 0 (0, 1) T1
     (calculated_result_m_sel 0)
     (by simp only [min_var_m_sel, max_sharpe_m_sel 0, pp_e1, pp_e2]; norm_num)
     0 (by norm_num)⟩

/-- C4 witness: the frontier-sweep theorem applied to the concrete `m_sel`
run. -/
theorem frontier_sweep_matches_spec_witness :
    T1.target_returns.length = 20 ∧
    T1.target_returns.getD 0 0
      = (port_performance (min_portfolio_var m_sel [1, 0] [[0, 0], [0, 0]] (0, 1)).x
          [1, 0] [[0, 0], [0, 0]]).1 := by
  have h := frontier_sweep_matches_spec m_sel [1, 0] [[0, 0], [0, 0]] 0 (0, 1) T1
    (calculated_result_m_sel 0)
  exact ⟨h.1, h.2.2.1⟩

/-- C6: on every successful run, each frontier entry records the achieved
minimized volatility (`fun` of the solve) when the target-return solve
converges and the non-numeric sentinel (`none`, modelling `np.nan`) when it
does not, and the chart's frontier-curve x-list (`ef_graph`, line 186) skips
infeasible points (`none`, rendered as a plotly gap) instead of plotting a
number. -/
theorem frontier_records_sentinel (minimize : Minimizer) (mean_return : List ℝ)
    (covar : List (List ℝ)) (risk_free_rate : ℝ) (constraint_set : ℝ × ℝ)
    (t : CalcOutput)
    (hok : calculated_result minimize mean_return covar risk_free_rate constraint_set = .ok t) :
    (∀ i, i < 20 → t.ef_vols.getD i none
        = (if (efficient_frontier minimize mean_return covar
                (t.target_returns.getD i 0) constraint_set).success
           then some (efficient_frontier minimize mean_return covar
                (t.target_returns.getD i 0) constraint_set).fval
           else none)) ∧
    (∀ i, i < 20 →
      (efficient_frontier minimize mean_return covar
          (t.target_returns.getD i 0) constraint_set).success = false →
      (ef_curve_x t.ef_vols).getD i none = none) ∧
    (∀ i v, i < 20 → t.ef_vols.getD i none = some v →
      (ef_curve_x t.ef_vols).getD i none = some (round_2dp (v * 100))) := by
  obtain ⟨-, -, ht⟩ := (calculated_result_ok_iff minimize mean_return covar
    risk_free_rate constraint_set t).mp hok
  subst ht
  have hlen : (calc_output minimize mean_return covar risk_free_rate
      constraint_set).target_returns.length = 20 := by
    rw [calc_output_target_returns, np_linspace_length]
  have heflen : (calc_output minimize mean_return covar risk_free_rate
      constraint_set).ef_vols.length = 20 := by
    rw [calc_output_ef_vols, List.length_map, hlen]
  have h1 : ∀ i, i < 20 →
      (calc_output minimize mean_return covar risk_free_rate constraint_set).ef_vols.getD i none
        = (if (efficient_frontier minimize mean_return covar
                ((calc_output minimize mean_return covar risk_free_rate
                  constraint_set).target_returns.getD i 0) constraint_set).success
           then some (efficient_frontier minimize mean_return covar
                ((calc_output minimize mean_return covar risk_free_rate
                  constraint_set).target_returns.getD i 0) constraint_set).fval
           else none) := by
    intro i hi
    rw [calc_output_ef_vols, getD_map_of_lt _ _ i 0 none (by rw [hlen]; exact hi)]
  refine ⟨h1, ?_, ?_⟩
  · intro i hi hfail
    unfold ef_curve_x
    rw [getD_map_of_lt _ _ i none none (by rw [heflen]; exact hi), h1 i hi, hfail]
    rfl
  · intro i v hi hv
    unfold ef_curve_x
    rw [getD_map_of_lt _ _ i none none (by rw [heflen]; exact hi), hv]
    rfl

lemma max_sharpe_m_mix (rf : ℝ) :
    max_sharpe_ratio m_mix [1, 0] [[0, 0], [0, 0]] rf (0, 1)
      = { x := [1, 0], success := true, message := "", fval := 0 } := by
  simp [max_sharpe_ratio, m_mix, m_sel, ns_zero rf]

lemma min_var_m_mix :
    min_portfolio_var m_mix [1, 0] [[0, 0], [0, 0]] (0, 1)
      = { x := [0, 1], success := true, message := "", fval := 0 } := by
  simp [min_portfolio_var, m_mix, m_sel]

lemma ef_m_mix (target : ℝ) :
    efficient_frontier m_mix [1, 0] [[0, 0], [0, 0]] target (0, 1)
      = { x := [0, 1], success := false, message := "infeasible", fval := 0 } := by
  simp [efficient_frontier, m_mix]

lemma calculated_result_m_mix :
    calculated_result m_mix [1, 0] [[0, 0], [0, 0]] 0 (0, 1) = .ok T2 := by
  rw [calculated_result_ok_iff]
  refine ⟨by rw [max_sharpe_m_mix 0], by rw [min_var_m_mix], ?_⟩
  simp only [calc_output, max_sharpe_m_mix 0, min_var_m_mix, ef_m_mix, pp_e1, pp_e2]
  simp only [List.map_const']
  rw [np_linspace_length]
  norm_num [T2, round_2dp]

/-- C6 witness: under `m_mix` every frontier solve fails, the recorded entry
is the sentinel `none` and the chart skips the point. -/
theorem frontier_records_sentinel_witness :
    T2.ef_vols.getD 0 none = none ∧ (ef_curve_x T2.ef_vols).getD 0 none = none := by
  have h := frontier_records_sentinel m_mix [1, 0] [[0, 0], [0, 0]] 0 (0, 1) T2
    calculated_result_m_mix
  have hfail : (efficient_frontier m_mix [1, 0] [[0, 0], [0, 0]]
      (T2.target_returns.getD 0 0) (0, 1)).success = false := rfl
  refine ⟨?_, h.2.1 0 (by norm_num) hfail⟩
  rw [h.1 0 (by norm_num), hfail]
  rfl

/-- C7: on every successful run the aggregator converts the raw fractional
returns and volatilities of both named portfolios to percentage points
rounded to 2 decimal places (Load_Data.py lines 139-140), carries each named
portfolio's raw weight vector as its allocation table, and the app layer
displays those tables as percentages rounded to 2 decimal places
(app.py lines 83-91). -/
theorem aggregator_percent_rounding (minimize : Minimizer) (mean_return : List ℝ)
    (covar : List (List ℝ)) (risk_free_rate : ℝ) (constraint_set : ℝ × ℝ)
    (t : CalcOutput)
    (hok : calculated_result minimize mean_return covar risk_free_rate constraint_set = .ok t) :
    t.opt_return = round_2dp
        ((port_performance (max_sharpe_ratio minimize mean_return covar risk_free_rate constraint_set).x
          mean_return covar).1 * 100) ∧
    t.opt_std = round_2dp
        ((port_performance (max_sharpe_ratio minimize mean_return covar risk_free_rate constraint_set).x
          mean_return covar).2 * 100) ∧
    t.minimal_return = round_2dp
        ((port_performance (min_portfolio_var minimize mean_return covar constraint_set).x
          mean_return covar).1 * 100) ∧
    t.minimal_std = round_2dp
        ((port_performance (min_portfolio_var minimize mean_return covar constraint_set).x
          mean_return covar).2 * 100) ∧
    t.optimal_allocation
        = (max_sharpe_ratio minimize mean_return covar risk_free_rate constraint_set).x ∧
    t.minimal_allocation
        = (min_portfolio_var minimize mean_return covar constraint_set).x ∧
    display_allocation t.optimal_allocation
        = (max_sharpe_ratio minimize mean_return covar risk_free_rate constraint_set).x.map
            (fun a => round_2dp (a * 100)) ∧
    display_allocation t.minimal_allocation
        = (min_portfolio_var minimize mean_return covar constraint_set).x.map
            (fun a => round_2dp (a * 100)) := by
  obtain ⟨-, -, ht⟩ := (calculated_result_ok_iff minimize mean_return covar
    risk_free_rate constraint_set t).mp hok
  subst ht
  exact ⟨rfl, rfl, rfl, rfl, rfl, rfl, rfl, rfl⟩

/-- C7 witness: the aggregator theorem applied to the concrete `m_sel` run. -/
theorem aggregator_percent_rounding_witness :
    T1.opt_return = round_2dp
        ((port_performance (max_sharpe_ratio m_sel [1, 0] [[0, 0], [0, 0]] 0 (0, 1)).x
          [1, 0] [[0, 0], [0, 0]]).1 * 100) ∧
    display_allocation T1.optimal_allocation
        = (max_sharpe_ratio m_sel [1, 0] [[0, 0], [0, 0]] 0 (0, 1)).x.map
            (fun a => round_2dp (a * 100)) := by
  have h := aggregator_percent_rounding m_sel [1, 0] [[0, 0], [0, 0]] 0 (0, 1) T1
    (calculated_result_m_sel 0)
  exact ⟨h.1, h.2.2.2.2.2.2.1⟩

/-- C8: the Minimum Volatility solve has no risk-free-rate dependency — for
any two risk-free rates, two successful runs agree on the Min Vol return,
volatility and allocation, and (whenever the Max Sharpe solve converges under
both rates) the two runs succeed or fail identically. -/
theorem min_vol_independent_of_risk_free_rate (minimize : Minimizer)
    (mean_return : List ℝ) (covar : List (List ℝ)) (constraint_set : ℝ × ℝ)
    (rf₁ rf₂ : ℝ) :
    (∀ t₁ t₂, calculated_result minimize mean_return covar rf₁ constraint_set = .ok t₁ →
      calculated_result minimize mean_return covar rf₂ constraint_set = .ok t₂ →
      t₁.minimal_return = t₂.minimal_return ∧
      t₁.minimal_std = t₂.minimal_std ∧
      t₁.minimal_allocation = t₂.minimal_allocation) ∧
    ((max_sharpe_ratio minimize mean_return covar rf₁ constraint_set).success = true →
     (max_sharpe_ratio minimize mean_return covar rf₂ constraint_set).success = true →
     (calculated_result minimize mean_return covar rf₁ constraint_set).isOk
       = (calculated_result minimize mean_return covar rf₂ constraint_set).isOk) := by
  constructor
  · intro t₁ t₂ h₁ h₂
    obtain ⟨-, -, ht₁⟩ := (calculated_result_ok_iff minimize mean_return covar
      rf₁ constraint_set t₁).mp h₁
    obtain ⟨-, -, ht₂⟩ := (calculated_result_ok_iff minimize mean_return covar
      rf₂ constraint_set t₂).mp h₂
    subst ht₁
    subst ht₂
    exact ⟨rfl, rfl, rfl⟩
  · intro h₁ h₂
    unfold calculated_result
    rcases hmv : (min_portfolio_var minimize mean_return covar constraint_set).success
    · simp [h₁, h₂, hmv]
    · simp [h₁, h₂, hmv, Except.isOk, Except.toBool]

/-- C8 witness: two `m_sel` runs at risk-free rates 0 and 1 both succeed with
the same Min Vol components. -/
theorem min_vol_independent_of_risk_free_rate_witness :
    calculated_result m_sel [1, 0] [[0, 0], [0, 0]] 0 (0, 1) = .ok T1 ∧
    calculated_result m_sel [1, 0] [[0, 0], [0, 0]] 1 (0, 1) = .ok T1 ∧
    T1.minimal_allocation = T1.minimal_allocation :=
  ⟨calculated_result_m_sel 0, calculated_result_m_sel 1,
   ((min_vol_independent_of_risk_free_rate m_sel [1, 0] [[0, 0], [0, 0]] (0, 1) 0 1).1 T1 T1
     (calculated_result_m_sel 0) (calculated_result_m_sel 1)).2.2⟩

/-- C9: each input-validation error — fewer than 2 tickers, lower bound ≥
upper bound, or a degenerate time window — produces a fixed error box that is
independent of the solver oracle (and, for the first two, of the fetch), so
it is surfaced before any optimization solver is invoked and no partial
computation is performed. -/
theorem input_validation_before_solvers (tickers : List String)
    (lower_bound upper_bound : ℝ) (start_date end_date : ℤ)
    (risk_free_rate : ℝ) :
    (tickers.length < 2 →
      ∀ fetch minimize,
        run_clicked tickers lower_bound upper_bound start_date end_date
            risk_free_rate fetch minimize
          = .errorBox "Please enter at least 2 tickers.") ∧
    (2 ≤ tickers.length → lower_bound ≥ upper_bound →
      ∀ fetch minimize,
        run_clicked tickers lower_bound upper_bound start_date end_date
            risk_free_rate fetch minimize
          = .errorBox "Lower bound must be smaller than upper bound.") ∧
    (2 ≤ tickers.length → lower_bound < upper_bound → start_date ≥ end_date →
      ∀ fetch minimize,
        run_clicked tickers lower_bound upper_bound start_date end_date
            risk_free_rate fetch minimize
          = .errorBox "Optimization failed: Start date must be earlier than end date.") := by
  refine ⟨?_, ?_, ?_⟩
  · intro h fetch minimize
    unfold run_clicked
    rw [if_pos h]
  · intro h hbound fetch minimize
    unfold run_clicked
    rw [if_neg (by omega), if_pos hbound]
  · intro h hbound hdate fetch minimize
    have hne : tickers ≠ [] := by
      intro hnil
      rw [hnil] at h
      simp at h
    unfold run_clicked get_data
    rw [if_neg (by omega), if_neg (not_le.mpr hbound), if_neg hne, if_pos hdate]
    rfl

/-- C9 witness: the three validation branches at concrete inputs, each
independent of the failing solver oracle and an erroring fetch. -/
theorem input_validation_before_solvers_witness :
    run_clicked ["AAPL"] 0 1 0 1 0 (.error "") m_fail
      = .errorBox "Please enter at least 2 tickers." ∧
    run_clicked ["AAPL", "MSFT"] 1 1 0 1 0 (.error "") m_fail
      = .errorBox "Lower bound must be smaller than upper bound." ∧
    run_clicked ["AAPL", "MSFT"] 0 1 5 5 0 (.error "") m_fail
      = .errorBox "Optimization failed: Start date must be earlier than end date." :=
  ⟨(input_validation_before_solvers ["AAPL"] 0 1 0 1 0).1 (by norm_num) (.error "") m_fail,
   (input_validation_before_solvers ["AAPL", "MSFT"] 1 1 0 1 0).2.1 (by norm_num)
     le_rfl (.error "") m_fail,
   (input_validation_before_solvers ["AAPL", "MSFT"] 0 1 5 5 0).2.2 (by norm_num)
     (by norm_num) (by norm_num) (.error "") m_fail⟩

lemma dedup_first_aux_congr (s₁ s₂ l : List String)
    (h : ∀ y, y ∈ s₁ ↔ y ∈ s₂) : dedup_first_aux s₁ l = dedup_first_aux s₂ l := by
  induction l generalizing s₁ s₂ with
  | nil => rfl
  | cons x xs ih =>
    unfold dedup_first_aux
    by_cases hx : x ∈ s₁
    · rw [if_pos hx, if_pos ((h x).mp hx)]
      exact ih s₁ s₂ h
    · rw [if_neg hx, if_neg (fun hc => hx ((h x).mpr hc))]
      refine congrArg _ (ih (x :: s₁) (x :: s₂) ?_)
      intro y
      simp [h y]

lemma foldl_fromkeys_step (l acc : List String) :
    l.foldl (fun acc x => if x ∈ acc then acc else acc ++ [x]) acc
      = acc ++ dedup_first_aux acc l := by
  induction l generalizing acc with
  | nil => simp [dedup_first_aux]
  | cons x xs ih =>
    rw [List.foldl_cons]
    unfold dedup_first_aux
    by_cases hx : x ∈ acc
    · rw [if_pos hx, if_pos hx, ih acc]
    · rw [if_neg hx, if_neg hx, ih (acc ++ [x]),
        dedup_first_aux_congr (acc ++ [x]) (x :: acc) xs (by intro y; simp [or_comm]),
        List.append_assoc, List.singleton_append]

lemma dedup_first_aux_mem (l : List String) :
    ∀ seen y, y ∈ dedup_first_aux seen l ↔ y ∈ l ∧ y ∉ seen := by
  induction l with
  | nil => simp [dedup_first_aux]
  | cons x xs ih =>
    intro seen y
    unfold dedup_first_aux
    by_cases hx : x ∈ seen
    · rw [if_pos hx, ih seen y, List.mem_cons]
      have h2 : y = x → y ∈ seen := fun h => h ▸ hx
      tauto
    · rw [if_neg hx, List.mem_cons, ih (x :: seen) y, List.mem_cons, List.mem_cons]
      have h2 : y = x → ¬ y ∈ seen := fun h => h ▸ hx
      tauto

lemma dedup_first_aux_nodup (l : List String) :
    ∀ seen, (dedup_first_aux seen l).Nodup := by
  induction l with
  | nil => intro seen; simp [dedup_first_aux]
  | cons x xs ih =>
    intro seen
    unfold dedup_first_aux
    by_cases hx : x ∈ seen
    · rw [if_pos hx]
      exact ih seen
    · rw [if_neg hx, List.nodup_cons]
      refine ⟨fun hc => ?_, ih (x :: seen)⟩
      exact ((dedup_first_aux_mem xs (x :: seen) x).mp hc).2 (List.mem_cons_self x seen)

lemma dedup_first_aux_sublist (l : List String) :
    ∀ seen, List.Sublist (dedup_first_aux seen l) l := by
  induction l with
  | nil => intro seen; simp [dedup_first_aux]
  | cons x xs ih =>
    intro seen
    unfold dedup_first_aux
    by_cases hx : x ∈ seen
    · rw [if_pos hx]
      exact (ih seen).cons x
    · rw [if_neg hx]
      exact (ih (x :: seen)).cons₂ x

/-- C10: `_parse_tickers` returns the comma-separated tokens trimmed,
uppercased and with empty tokens dropped, deduplicated with Python
`dict.fromkeys` first-occurrence semantics: it equals the left-to-right
insertion fold, is duplicate-free, contains exactly the cleaned tokens
(each a trimmed-and-uppercased nonempty piece of the comma split), and is an
order-preserving sublist of the cleaned token list. -/
theorem parse_tickers_spec (raw_value : String) :
    _parse_tickers raw_value = fromkeys_spec (clean_tokens raw_value) ∧
    (_parse_tickers raw_value).Nodup ∧
    (∀ s, s ∈ _parse_tickers raw_value ↔
      ∃ t ∈ raw_value.splitOn ",", ¬ t.trim = "" ∧ s = t.trim.toUpper) ∧
    List.Sublist (_parse_tickers raw_value) (clean_tokens raw_value) := by
  refine ⟨?_, ?_, ?_, ?_⟩
  · rw [fromkeys_spec, foldl_fromkeys_step, List.nil_append]
    rfl
  · exact dedup_first_aux_nodup _ []
  · intro s
    rw [_parse_tickers, dedup_first_aux_mem]
    simp only [List.not_mem_nil, not_false_iff, and_true, clean_tokens,
      List.mem_filterMap]
    constructor
    · rintro ⟨t, ht, hs⟩
      by_cases hr : t.trim = ""
      · rw [if_pos hr] at hs
        exact absurd hs (by simp)
      · rw [if_neg hr] at hs
        exact ⟨t, ht, hr, (Option.some_inj.mp hs).symm⟩
    · rintro ⟨t, ht, hr, rfl⟩
      exact ⟨t, ht, by rw [if_neg hr]⟩
  · exact dedup_first_aux_sublist _ []

